import Mathlib

/-!
Verification development for the animation production tracker's
reconciliation core (sync service, record stores, HTTP sync endpoints).

The definitions below are shallow embeddings of the JavaScript source:

* `SqliteRow` / `insertData` / `updateData` / `deleteData` — the SQLite
  record store (`database/sqlite-db.js`): `insertData` is an
  `INSERT OR REPLACE` against the table's
  `UNIQUE(animator, project_type, episode_title, scene, shot, week_yyyymmdd)`
  constraint.
* `postProductionData` — the `POST /api/production-data` handler in
  `server.js` (duplicate check on the 4-tuple, Excel write, best-effort
  database sync and peer notification).
* `authenticateAPI` / `exportAuthCheck` / `exportEndpoint` — the shared
  secret `x-api-key` gates (`server/routes/api.js` and the
  `/api/productions/export` handler in `server.js`).
* `SyncWorld` with `syncFromRailway` / `syncToRailway` and the two
  bidirectional compositions — the sync service (`services/syncService.js`).
* An orchestrator transition system for the `isSyncing` single-flight flag.

Machine integers do not overflow at the record counts involved, so ids and
timestamps are modelled as `Nat`; absent JavaScript values (`undefined`,
empty string, falsy `0`) are modelled explicitly where the code branches
on them.
-/

/-- One row of the `production_summary` table of `database/sqlite-db.js`
(surrogate `id` from `INTEGER PRIMARY KEY AUTOINCREMENT`). -/
structure SqliteRow where
  id : Nat
  animator : String
  project_type : String
  episode_title : String
  scene : String
  shot : String
  week_yyyymmdd : String
  status : String
  notes : String
  synced_to_local : Bool
deriving DecidableEq, Repr

/-- The payload of an insert or update (the eight data columns). -/
structure RowData where
  animator : String
  project_type : String
  episode_title : String
  scene : String
  shot : String
  week_yyyymmdd : String
  status : String
  notes : String
deriving DecidableEq, Repr

/-- The six-column key of the SQLite schema's UNIQUE constraint
`UNIQUE(animator, project_type, episode_title, scene, shot, week_yyyymmdd)`. -/
def key6 (d : RowData) : String × String × String × String × String × String :=
  (d.animator, d.project_type, d.episode_title, d.scene, d.shot, d.week_yyyymmdd)

/-- The data columns of a stored row. -/
def rowData (r : SqliteRow) : RowData :=
  { animator := r.animator, project_type := r.project_type
  , episode_title := r.episode_title, scene := r.scene, shot := r.shot
  , week_yyyymmdd := r.week_yyyymmdd, status := r.status, notes := r.notes }

/-- Six-column key of a stored row. -/
def key6row (r : SqliteRow) : String × String × String × String × String × String :=
  key6 (rowData r)

/-- The identity key named by the spec: `(projectType, title, scene, shot)`. -/
def key4 (d : RowData) : String × String × String × String :=
  (d.project_type, d.episode_title, d.scene, d.shot)

/-- Four-column key of a stored row. -/
def key4row (r : SqliteRow) : String × String × String × String :=
  key4 (rowData r)

/-- Outcome of a store-level insert. `conflictError` is the rejection the
spec's Record Store contract describes; the SQLite implementation never
produces it. -/
inductive InsertOutcome
  | ok (id : Nat)
  | conflictError
deriving DecidableEq, Repr

/-- `insertData` of `database/sqlite-db.js`: an `INSERT OR REPLACE` keyed by
the six-column UNIQUE constraint. SQLite's REPLACE conflict resolution
deletes every row that collides on the constraint and then inserts the new
row (with a fresh AUTOINCREMENT id); it never reports a conflict. -/
def insertData (store : List SqliteRow) (nextId : Nat) (data : RowData)
    (synced : Bool) : List SqliteRow × Nat × InsertOutcome :=
  let kept := store.filter (fun r => decide (key6row r ≠ key6 data))
  let row : SqliteRow :=
    { id := nextId, animator := data.animator, project_type := data.project_type
    , episode_title := data.episode_title, scene := data.scene, shot := data.shot
    , week_yyyymmdd := data.week_yyyymmdd, status := data.status
    , notes := data.notes, synced_to_local := synced }
  (kept ++ [row], nextId + 1, InsertOutcome.ok nextId)

/-- `updateData` of `database/sqlite-db.js`: a plain `UPDATE ... WHERE id = ?`.
Without `OR REPLACE`, SQLite aborts the statement (leaving the table
unchanged) when the updated row would collide with a different row on the
six-column UNIQUE constraint. -/
def updateData (store : List SqliteRow) (i : Nat) (data : RowData)
    (synced : Bool) : List SqliteRow :=
  if store.any (fun r => decide (r.id ≠ i) && decide (key6row r = key6 data)) then
    store
  else
    store.map (fun r =>
      if r.id = i then
        { r with
            animator := data.animator, project_type := data.project_type,
            episode_title := data.episode_title, scene := data.scene,
            shot := data.shot, week_yyyymmdd := data.week_yyyymmdd,
            status := data.status, notes := data.notes, synced_to_local := synced }
      else r)

/-- `deleteData` of `database/sqlite-db.js`: `DELETE FROM production_summary
WHERE id = ?`. -/
def deleteData (store : List SqliteRow) (i : Nat) : List SqliteRow :=
  store.filter (fun r => decide (r.id ≠ i))

/-- No two rows of the store share the six-column key. -/
def Uniq6 (store : List SqliteRow) : Prop :=
  store.Pairwise (fun a b => key6row a ≠ key6row b)

/-- No two rows of the store share the spec's 4-tuple identity key. -/
def Uniq4 (store : List SqliteRow) : Prop :=
  store.Pairwise (fun a b => key4row a ≠ key4row b)

/-- No two rows share a surrogate id (the PRIMARY KEY). -/
def UniqIds (store : List SqliteRow) : Prop :=
  store.Pairwise (fun a b => a.id ≠ b.id)

instance : DecidablePred Uniq6 := fun s => by
  unfold Uniq6; exact List.instDecidablePairwise s

instance : DecidablePred Uniq4 := fun s => by
  unfold Uniq4; exact List.instDecidablePairwise s

instance : DecidablePred UniqIds := fun s => by
  unfold UniqIds; exact List.instDecidablePairwise s

/-- Outcome of the network leg of a peer notification (the axios POST to the
peer's apply-one-change endpoint). -/
inductive NotifyOutcome
  | delivered
  | transportFailed
deriving DecidableEq, Repr

/-- The network send inside `notifyLocalServer` (`server.js`): skipped when no
peer URL is configured, otherwise it succeeds or raises a transport error. -/
def sendToPeer (configured : Bool) (outcome : NotifyOutcome) : Except String Unit :=
  if !configured then Except.ok ()
  else
    match outcome with
    | NotifyOutcome.delivered => Except.ok ()
    | NotifyOutcome.transportFailed => Except.error "transport"

/-- `notifyLocalServer` of `server.js`: the whole body is wrapped in
try/catch — a failed send is logged and swallowed, the function never
raises to its caller. -/
def notifyLocalServer (configured : Bool) (outcome : NotifyOutcome) :
    Except String Unit :=
  match sendToPeer configured outcome with
  | Except.ok _ => Except.ok ()
  | Except.error _ => Except.ok ()

/-- Response of `POST /api/production-data` (`server.js`): 400 on a duplicate
scene/shot combination, 500 when the Excel write fails, otherwise
success with the `databaseSynced` metadata flag. -/
inductive HttpResponse
  | badRequestDuplicate
  | serverErrorExcel
  | okCreated (databaseSynced : Bool)
deriving DecidableEq, Repr

/-- Whether a response reports success to the mutation's caller. -/
def respSuccess : HttpResponse → Bool
  | HttpResponse.okCreated _ => true
  | _ => false

/-- The duplicate check of the `POST /api/production-data` handler: it
compares only `Project Type`, `Episode/Title`, `Scene` and `Shot`
("project content only"), ignoring animator and week. -/
def isDuplicateOf (newEntry item : RowData) : Bool :=
  decide (item.project_type = newEntry.project_type) &&
  decide (item.episode_title = newEntry.episode_title) &&
  decide (item.scene = newEntry.scene) &&
  decide (item.shot = newEntry.shot)

/-- The `POST /api/production-data` handler of `server.js`: read the existing
Excel data, reject a duplicate 4-tuple with HTTP 400 leaving the data
untouched, otherwise append the entry and write Excel (500 on write
failure); then best-effort database sync (`dbResult`, reported only as the
`databaseSynced` metadata flag) and best-effort peer notification whose
failure is caught and logged. Returns the response and the Excel data
afterwards. -/
def postProductionData (existingData : List RowData) (newEntry : RowData)
    (excelWriteOk : Bool) (dbResult : Option Bool)
    (notifyConfigured : Bool) (notifyOutcome : NotifyOutcome) :
    HttpResponse × List RowData :=
  if existingData.any (isDuplicateOf newEntry) then
    (HttpResponse.badRequestDuplicate, existingData)
  else if !excelWriteOk then
    (HttpResponse.serverErrorExcel, existingData)
  else
    match notifyLocalServer notifyConfigured notifyOutcome with
    | Except.ok _ =>
        (HttpResponse.okCreated (dbResult.getD false), existingData ++ [newEntry])
    | Except.error _ =>
        -- catch block of the notify call: warn and fall through to success
        (HttpResponse.okCreated (dbResult.getD false), existingData ++ [newEntry])

/-- Decision of an authentication gate. -/
inductive AuthDecision
  | proceed
  | reject401
deriving DecidableEq, Repr

/-- `authenticateAPI` of `server/routes/api.js`. An unset environment
variable and an absent header are both falsy in JavaScript and are
modelled as the empty string. -/
def authenticateAPI (expectedKey apiKey : String) : AuthDecision :=
  if expectedKey = "" then AuthDecision.proceed
  else if apiKey = "" ∨ apiKey ≠ expectedKey then AuthDecision.reject401
  else AuthDecision.proceed

/-- The inline key check of `GET /api/productions/export` in `server.js`:
reject 401 when a secret is configured and the supplied key differs. -/
def exportAuthCheck (secret apiKey : String) : AuthDecision :=
  if secret ≠ "" ∧ apiKey ≠ secret then AuthDecision.reject401
  else AuthDecision.proceed

/-- Response of `GET /api/productions/export`. -/
inductive ExportResponse
  | unauthorized
  | ok (data : List SqliteRow) (count : Nat)
deriving DecidableEq, Repr

/-- The `GET /api/productions/export` handler: key gate, then the full
record list with its count. -/
def exportEndpoint (secret apiKey : String) (productions : List SqliteRow) :
    ExportResponse :=
  match exportAuthCheck secret apiKey with
  | AuthDecision.reject401 => ExportResponse.unauthorized
  | AuthDecision.proceed => ExportResponse.ok productions productions.length

/-- Scenario-B row: the record for (long-form, Ep1, SC_01, SH_01) submitted
by animator A for week 20250106, stored with surrogate id 1. -/
def rowB1 : SqliteRow :=
  { id := 1, animator := "A", project_type := "long-form"
  , episode_title := "Ep1", scene := "SC_01", shot := "SH_01"
  , week_yyyymmdd := "20250106", status := "submitted", notes := ""
  , synced_to_local := false }

/-- A second submission for the same (projectType, title, scene, shot)
identity key but a different animator and week. -/
def dataB2 : RowData :=
  { animator := "B", project_type := "long-form", episode_title := "Ep1"
  , scene := "SC_01", shot := "SH_01", week_yyyymmdd := "20250113"
  , status := "submitted", notes := "" }

/-- The data columns of `rowB1`. -/
def dataB1 : RowData := rowData rowB1

/-- The store already holding the first Scenario-B record. -/
def storeB : List SqliteRow := [rowB1]

/-- The row `insertData` appends for the second submission. -/
def rowB2 : SqliteRow :=
  { id := 2, animator := "B", project_type := "long-form"
  , episode_title := "Ep1", scene := "SC_01", shot := "SH_01"
  , week_yyyymmdd := "20250113", status := "submitted", notes := ""
  , synced_to_local := false }

/-- Claim C3 counterexample: on the store that already holds a record with
identity key (long-form, Ep1, SC_01, SH_01), the store-level `insertData`
of a second record with that identity key but a different animator and
week does not fail with a ConflictError — it succeeds (the six-column
`INSERT OR REPLACE` key does not collide) and the store ends up holding
both records. -/
theorem c3_store_insert_does_not_reject :
    key4 dataB2 = key4row rowB1 ∧
    dataB2.animator ≠ rowB1.animator ∧
    dataB2.week_yyyymmdd ≠ rowB1.week_yyyymmdd ∧
    (insertData storeB 2 dataB2 false).2.2 ≠ InsertOutcome.conflictError ∧
    (insertData storeB 2 dataB2 false).2.2 = InsertOutcome.ok 2 ∧
    (insertData storeB 2 dataB2 false).1 = [rowB1, rowB2] := by decide

/-- Claim C3 (amended): the duplicate-identity rejection lives in the
`POST /api/production-data` handler, not the store — whenever the existing
data already contains an entry with the same
(projectType, title, scene, shot), the handler rejects the submission with
an HTTP 400 duplicate error and leaves the stored data exactly unchanged,
even when the two entries differ in animator or week. -/
theorem c3_endpoint_rejects_duplicate (existingData : List RowData)
    (newEntry : RowData) (excelWriteOk : Bool) (dbResult : Option Bool)
    (cfg : Bool) (o : NotifyOutcome)
    (hdup : existingData.any (isDuplicateOf newEntry) = true) :
    (postProductionData existingData newEntry excelWriteOk dbResult cfg o).1
        = HttpResponse.badRequestDuplicate ∧
    (postProductionData existingData newEntry excelWriteOk dbResult cfg o).2
        = existingData := by
  simp [postProductionData, hdup]

/-- Witness for `c3_endpoint_rejects_duplicate` at the Scenario-B input
(same identity key, different animator and week). -/
theorem c3_endpoint_rejects_duplicate_witness :
    [dataB1].any (isDuplicateOf dataB2) = true ∧
    ((postProductionData [dataB1] dataB2 true (some true) true
        NotifyOutcome.delivered).1 = HttpResponse.badRequestDuplicate ∧
     (postProductionData [dataB1] dataB2 true (some true) true
        NotifyOutcome.delivered).2 = [dataB1]) :=
  ⟨by decide,
   c3_endpoint_rejects_duplicate [dataB1] dataB2 true (some true) true
     NotifyOutcome.delivered (by decide)⟩

/-- Claim C4 counterexample: the store state reached by inserting the two
Scenario-B records violates the claimed 4-tuple identity uniqueness
invariant — the SQLite store (UNIQUE on the six-column key) accepts both,
so two records share (projectType, title, scene, shot). -/
theorem c4_reachable_duplicate_identity_key :
    Uniq4 storeB ∧ ¬ Uniq4 (insertData storeB 2 dataB2 false).1 := by decide

/-- Helper: the row built by `insertData` carries the six-column key of its
payload. -/
lemma key6row_insert_row (nextId : Nat) (data : RowData) (synced : Bool) :
    key6row
      { id := nextId, animator := data.animator
      , project_type := data.project_type
      , episode_title := data.episode_title, scene := data.scene
      , shot := data.shot, week_yyyymmdd := data.week_yyyymmdd
      , status := data.status, notes := data.notes
      , synced_to_local := synced } = key6 data := rfl

/-- Helper: `insertData` preserves six-column uniqueness — the REPLACE
resolution deletes every colliding row before the insert. -/
lemma insertData_uniq6 (store : List SqliteRow) (nextId : Nat)
    (data : RowData) (synced : Bool) (h6 : Uniq6 store) :
    Uniq6 (insertData store nextId data synced).1 := by
  unfold insertData Uniq6
  simp only []
  rw [List.pairwise_append]
  refine ⟨h6.filter _, List.pairwise_singleton _ _, ?_⟩
  intro a ha b hb
  rw [List.mem_singleton] at hb
  subst hb
  have hkept := (List.mem_filter.mp ha).2
  simp only [decide_eq_true_eq] at hkept
  exact hkept

/-- Helper: a plain SQLite UPDATE preserves six-column uniqueness (it aborts
on a would-be collision), provided surrogate ids are unique. -/
lemma updateData_uniq6 (store : List SqliteRow) (i : Nat) (data : RowData)
    (synced : Bool) (h6 : Uniq6 store) (hid : UniqIds store) :
    Uniq6 (updateData store i data synced) := by
  unfold updateData
  by_cases hcol :
      store.any (fun r => decide (r.id ≠ i) && decide (key6row r = key6 data)) = true
  · rw [if_pos hcol]; exact h6
  · rw [if_neg hcol]
    have hno : ∀ r ∈ store, r.id = i ∨ key6row r ≠ key6 data := by
      intro r hr
      by_contra hcon
      push_neg at hcon
      exact hcol (List.any_eq_true.mpr
        ⟨r, hr, by simp [hcon.1, hcon.2]⟩)
    clear hcol
    induction store with
    | nil => exact List.Pairwise.nil
    | cons a t ih =>
      rw [List.map_cons]
      simp only [Uniq6, UniqIds] at h6 hid ⊢
      rw [List.pairwise_cons] at h6 hid ⊢
      refine ⟨?_, ih h6.2 hid.2 (fun r hr => hno r (List.mem_cons_of_mem a hr))⟩
      intro b hb
      obtain ⟨r, hr, rfl⟩ := List.mem_map.mp hb
      by_cases hai : a.id = i
      · -- the head is the updated row; every other row keeps its key,
        -- which cannot collide with the new key
        have hri : ¬ r.id = i := fun h => hid.1 r hr (by rw [hai, h])
        have hrk : key6row r ≠ key6 data := by
          rcases hno r (List.mem_cons_of_mem a hr) with h | h
          · exact absurd h hri
          · exact h
        simp only [if_pos hai, if_neg hri]
        intro h
        exact hrk (by rw [← h]; rfl)
      · by_cases hri : r.id = i
        · -- the other row is the updated one
          have hak : key6row a ≠ key6 data := by
            rcases hno a (List.mem_cons_self a t) with h | h
            · exact absurd h hai
            · exact h
          simp only [if_neg hai, if_pos hri]
          intro h
          exact hak (by rw [h]; rfl)
        · simp only [if_neg hai, if_neg hri]
          exact h6.1 r hr

/-- Claim C4 (amended): the uniqueness invariant the SQLite Record Store
actually maintains is keyed on the six-column tuple
(animator, projectType, title, scene, shot, week): every store whose rows
are pairwise distinct on that key stays so under `insertData`
(INSERT OR REPLACE), `updateData` (UPDATE, aborting on a would-be
collision; surrogate ids are a PRIMARY KEY) and `deleteData`. The 4-tuple
rule is enforced only by the HTTP endpoint's duplicate check, not by the
store. -/
theorem c4_store_preserves_six_column_uniqueness
    (store : List SqliteRow) (h6 : Uniq6 store) :
    (∀ nextId data synced, Uniq6 (insertData store nextId data synced).1) ∧
    (∀ i data synced, UniqIds store → Uniq6 (updateData store i data synced)) ∧
    (∀ i, Uniq6 (deleteData store i)) :=
  ⟨fun nextId data synced => insertData_uniq6 store nextId data synced h6,
   fun i data synced hid => updateData_uniq6 store i data synced h6 hid,
   fun _ => h6.filter _⟩

/-- Witness for `c4_store_preserves_six_column_uniqueness` on the
one-record Scenario-B store. -/
theorem c4_store_preserves_six_column_uniqueness_witness :
    Uniq6 storeB ∧ UniqIds storeB ∧
    (Uniq6 (insertData storeB 2 dataB2 false).1 ∧
     Uniq6 (updateData storeB 1 dataB2 false) ∧
     Uniq6 (deleteData storeB 1)) := by
  have h := c4_store_preserves_six_column_uniqueness storeB (by decide)
  exact ⟨by decide, by decide,
    h.1 2 dataB2 false, h.2.1 1 dataB2 false (by decide), h.2.2 1⟩

/-- Claim C8: notification fan-out failures never affect the mutation's
caller — `notifyLocalServer` swallows every failure (it never returns an
error), the handler's response is entirely independent of the
notification outcome, and the success of the response is determined by
the Record Store path alone (duplicate check and Excel write), with the
database sync outcome surfacing only as metadata, never in the success
flag. -/
theorem c8_notify_never_affects_mutation :
    (∀ cfg o, notifyLocalServer cfg o = Except.ok ()) ∧
    (∀ e n w d cfg o1 o2,
      postProductionData e n w d cfg o1 = postProductionData e n w d cfg o2) ∧
    (∀ e n w d cfg o,
      respSuccess (postProductionData e n w d cfg o).1
        = (!(e.any (isDuplicateOf n)) && w)) ∧
    (∀ e n w cfg o d1 d2,
      respSuccess (postProductionData e n w d1 cfg o).1
        = respSuccess (postProductionData e n w d2 cfg o).1) := by
  have hok : ∀ cfg o, notifyLocalServer cfg o = Except.ok () := by
    intro cfg o
    cases cfg <;> cases o <;> rfl
  refine ⟨hok, ?_, ?_, ?_⟩
  · intro e n w d cfg o1 o2
    simp [postProductionData, hok]
  · intro e n w d cfg o
    by_cases hdup : e.any (isDuplicateOf n) = true
    · simp [postProductionData, hdup, respSuccess]
    · rw [Bool.not_eq_true] at hdup
      cases w <;> simp [postProductionData, hdup, respSuccess, hok]
  · intro e n w cfg o d1 d2
    by_cases hdup : e.any (isDuplicateOf n) = true
    · simp [postProductionData, hdup]
    · rw [Bool.not_eq_true] at hdup
      cases w <;> simp [postProductionData, hdup, respSuccess, hok]

/-- Claim C10: when a shared secret is configured on the receiving side,
both gates (`authenticateAPI` and the export endpoint's inline check)
reject with 401 exactly when the supplied `x-api-key` differs from the
secret; when no secret is configured, authentication is disabled and the
response does not depend on the supplied key at all. -/
theorem c10_auth_gating :
    (∀ secret key, secret ≠ "" →
      (authenticateAPI secret key = AuthDecision.reject401 ↔ key ≠ secret)) ∧
    (∀ secret key, secret ≠ "" →
      (exportAuthCheck secret key = AuthDecision.reject401 ↔ key ≠ secret)) ∧
    (∀ k1 k2 productions,
      exportEndpoint "" k1 productions = exportEndpoint "" k2 productions) ∧
    (∀ k1 k2, authenticateAPI "" k1 = authenticateAPI "" k2) := by
  refine ⟨?_, ?_, ?_, ?_⟩
  · intro secret key hs
    constructor
    · intro h hk
      subst hk
      simp [authenticateAPI, hs] at h
    · intro hk
      simp [authenticateAPI, hs, hk]
  · intro secret key hs
    constructor
    · intro h hk
      subst hk
      simp [exportAuthCheck] at h
    · intro hk
      simp [exportAuthCheck, hs, hk]
  · intro k1 k2 productions
    simp [exportEndpoint, exportAuthCheck]
  · intro k1 k2
    simp [authenticateAPI]

/-- Witness for `c10_auth_gating` at a concrete configured secret: a wrong
key is rejected by the middleware gate and the correct key passes the
export gate. -/
theorem c10_auth_gating_witness :
    (("parcel2025" : String) ≠ "" ∧
      (authenticateAPI "parcel2025" "wrongkey" = AuthDecision.reject401 ↔
        ("wrongkey" : String) ≠ "parcel2025")) ∧
    (("parcel2025" : String) ≠ "" ∧
      (exportAuthCheck "parcel2025" "parcel2025" = AuthDecision.reject401 ↔
        ("parcel2025" : String) ≠ "parcel2025")) :=
  ⟨⟨by decide, c10_auth_gating.1 "parcel2025" "wrongkey" (by decide)⟩,
   ⟨by decide, c10_auth_gating.2.1 "parcel2025" "parcel2025" (by decide)⟩⟩

/-- A record of the local server's Record Store (`server/database/db.js`),
as handled by the sync service: surrogate id, the eight data columns,
the peer-assigned `railway_id`, timestamps and the `last_synced` marker. -/
structure LocalRec where
  id : Nat
  animator : String
  project_type : String
  episode_title : String
  scene : String
  shot : String
  week_yyyymmdd : String
  status : String
  notes : String
  railway_id : Option Nat
  created_at : Nat
  updated_at : Nat
  last_synced : Option Nat
deriving DecidableEq, Repr

/-- Modelled from the spec: the view a concurrent reader (`getAll`) has of
the Record Store while `replaceAllRecords` runs. The implementation of
`replaceAllRecords` lives in `server/database/db.js`, which is not among
the provided sources (only its callers are); the spec prescribes
copy-then-swap — build the new full set in a scratch copy, then
atomically swap the visible reference. -/
structure StoreView where
  visible : List LocalRec
  scratch : List LocalRec
deriving DecidableEq, Repr

/-- Modelled from the spec: one build step of `replaceAllRecords` — copy the
next record into the scratch set; the visible store is untouched. -/
def buildStep (v : StoreView) (r : LocalRec) : StoreView :=
  { v with scratch := v.scratch ++ [r] }

/-- Modelled from the spec: the store's view after the first `k` build steps
of a `replaceAllRecords records` call that started from `store`. -/
def replaceAllPartial (store records : List LocalRec) (k : Nat) : StoreView :=
  (records.take k).foldl buildStep { visible := store, scratch := [] }

/-- Modelled from the spec: the final swap — the completed scratch copy
becomes the visible store in one step. -/
def swapPhase (v : StoreView) : StoreView :=
  { visible := v.scratch, scratch := [] }

/-- Modelled from the spec: a full `replaceAllRecords` run, faulted after
`k` build steps (before the swap) when `fault = some k`, completing the
build and the swap otherwise. Returns the visible store and whether the
call succeeded. -/
def replaceAllRecords (store records : List LocalRec) (fault : Option Nat) :
    List LocalRec × Bool :=
  match fault with
  | some k => ((replaceAllPartial store records k).visible, false)
  | none => ((swapPhase (replaceAllPartial store records records.length)).visible, true)

/-- Helper: building the scratch copy never touches the visible store and
accumulates exactly the records fed so far. -/
lemma foldl_buildStep (l : List LocalRec) (store acc : List LocalRec) :
    l.foldl buildStep { visible := store, scratch := acc } =
      { visible := store, scratch := acc ++ l } := by
  induction l generalizing acc with
  | nil => simp
  | cons r t ih =>
    rw [List.foldl_cons]
    rw [show buildStep { visible := store, scratch := acc } r =
          { visible := store, scratch := acc ++ [r] } from rfl]
    rw [ih (acc ++ [r])]
    simp

/-- Claim C5: `replaceAllRecords` is atomic. Mid-run, after any number of
build steps, a concurrent reader still observes exactly the pre-call
contents; a run interrupted before the swap leaves the store exactly as
it was; a completed run leaves exactly the given record set; and in every
case the observable store is either the old contents or the new set —
never a partially replaced state. -/
theorem c5_replaceAll_atomic (store records : List LocalRec) :
    (∀ k, (replaceAllPartial store records k).visible = store) ∧
    (∀ k, replaceAllRecords store records (some k) = (store, false)) ∧
    (replaceAllRecords store records none = (records, true)) ∧
    (∀ fault, (replaceAllRecords store records fault).1 = store ∨
              (replaceAllRecords store records fault).1 = records) := by
  have hpart : ∀ k, replaceAllPartial store records k =
      { visible := store, scratch := records.take k } := by
    intro k
    unfold replaceAllPartial
    rw [foldl_buildStep (records.take k) store []]
    simp
  refine ⟨?_, ?_, ?_, ?_⟩
  · intro k; rw [hpart k]
  · intro k
    simp [replaceAllRecords, hpart]
  · simp [replaceAllRecords, hpart, swapPhase]
  · intro fault
    match fault with
    | some k => simp [replaceAllRecords, hpart]
    | none => simp [replaceAllRecords, hpart, swapPhase]

/-- A record of the Railway (peer) database as returned by its
`/api/productions/export` endpoint. The peer id is a SERIAL primary key;
timestamps may be absent in a raw payload (the converter substitutes the
current time), hence `Option`. -/
structure RailwayRec where
  id : Nat
  animator : String
  project_type : String
  episode_title : String
  scene : String
  shot : String
  week_yyyymmdd : String
  status : String
  notes : String
  created_at : Option Nat
  updated_at : Option Nat
deriving DecidableEq, Repr

/-- The two network legs of a reconciliation pass, in the order they run. -/
inductive SyncEvent
  | push
  | pull
deriving DecidableEq, Repr

/-- The status vocabulary the sync service writes into the sync log:
`success`/`failed` for sync passes and per-record pushes, `completed`
for the duration-analysis entry. There is no other severity channel. -/
inductive LogStatus
  | success
  | failed
  | completed
deriving DecidableEq, Repr

/-- One entry of the sync log as written by `db.logSync` calls in
`services/syncService.js`. -/
structure LogEntry where
  sync_type : String
  action : String
  status : LogStatus
  local_record_id : Option Nat
  railway_record_id : Option Nat
deriving DecidableEq, Repr

/-- The state a reconciliation pass touches: the local store, the remote
(Railway) store, the sync log and the observable order of network legs.
`failIds` names the local records whose individual push to the peer fails
(malformed payload or per-record transport error); `durationOk` is the
outcome of the external duration-analysis collaborator; `freshBase`
models the `Date.now() + Math.random()` fresh-id supply (consecutive
draws are `freshBase`, `freshBase + 1`, …); `nextRemoteId` is the peer's
SERIAL id counter. -/
structure SyncWorld where
  localRecs : List LocalRec
  remoteRecs : List RailwayRec
  syncLog : List LogEntry
  events : List SyncEvent
  failIds : List Nat
  durationOk : Bool
  freshBase : Nat
  now : Nat
  nextRemoteId : Nat
deriving DecidableEq, Repr

/-- The per-record conversion inside `syncFromRailway`: reuse the local
surrogate id of the record already mapped to this peer id (JavaScript's
`?.id || fresh` falls back to a fresh draw when the found id is the falsy
0), fresh id otherwise; copy the data columns; remember the peer id;
default missing timestamps to the current time. The converted record has
no `last_synced` field. -/
def convertRecord (localRecords : List LocalRec) (fresh now : Nat)
    (record : RailwayRec) : LocalRec :=
  { id := match localRecords.find? (fun l => decide (l.railway_id = some record.id)) with
          | some l => if l.id = 0 then fresh else l.id
          | none => fresh
  , animator := record.animator
  , project_type := record.project_type
  , episode_title := record.episode_title
  , scene := record.scene
  , shot := record.shot
  , week_yyyymmdd := record.week_yyyymmdd
  , status := record.status
  , notes := record.notes
  , railway_id := some record.id
  , created_at := record.created_at.getD now
  , updated_at := record.updated_at.getD now
  , last_synced := none }

/-- The `railwayRecords.map` conversion of `syncFromRailway`, drawing one
fresh id per record. -/
def convertAllAux (localRecords : List LocalRec) (now : Nat) :
    Nat → List RailwayRec → List LocalRec
  | _, [] => []
  | fresh, r :: rs =>
      convertRecord localRecords fresh now r ::
        convertAllAux localRecords now (fresh + 1) rs

/-- `syncFromRailway` of `services/syncService.js` (the pull-authoritative
pass): fetch the peer snapshot (`response.data.data || []` — an empty
list is accepted as data), convert it against the current local records,
replace the local store entirely with the converted set, run the external
duration analysis (logged `completed` or `failed`), and log the pass as
an ordinary `success` entry of type `railway_to_local_full`. Time
advances across the pass; the fresh-id supply moves past the draws the
conversion may have used. -/
def syncFromRailway (w : SyncWorld) : SyncWorld :=
  let convertedRecords := convertAllAux w.localRecs w.now w.freshBase w.remoteRecs
  let durationEntry : LogEntry :=
    { sync_type := "duration_analysis", action := "duration_check"
    , status := if w.durationOk then LogStatus.completed else LogStatus.failed
    , local_record_id := none, railway_record_id := none }
  let passEntry : LogEntry :=
    { sync_type := "railway_to_local_full", action := "full_sync"
    , status := LogStatus.success
    , local_record_id := none, railway_record_id := none }
  { w with
      localRecs := convertedRecords
      syncLog := w.syncLog ++ [durationEntry, passEntry]
      events := w.events ++ [SyncEvent.pull]
      freshBase := w.freshBase + w.remoteRecs.length + 1
      now := w.now + 1 }

/-- The `recordsToSync` filter of `syncToRailway`:
`!record.last_synced || updated_at > last_synced`. -/
def needsSync (record : LocalRec) : Bool :=
  match record.last_synced with
  | none => true
  | some t => decide (t < record.updated_at)

/-- `getUnsynced`: the local records the push pass will send. -/
def getUnsynced (recs : List LocalRec) : List LocalRec :=
  recs.filter needsSync

/-- The data columns a push sends to the peer, applied to an existing peer
row (the peer's update endpoint). -/
def applyData (record : LocalRec) (rr : RailwayRec) : RailwayRec :=
  { rr with
      animator := record.animator, project_type := record.project_type,
      episode_title := record.episode_title, scene := record.scene,
      shot := record.shot, week_yyyymmdd := record.week_yyyymmdd,
      status := record.status, notes := record.notes }

/-- A freshly created peer row for a pushed record (the peer's create
endpoint assigns the SERIAL id). -/
def newRemote (railwayId : Nat) (record : LocalRec) (now : Nat) : RailwayRec :=
  { id := railwayId, animator := record.animator
  , project_type := record.project_type
  , episode_title := record.episode_title, scene := record.scene
  , shot := record.shot, week_yyyymmdd := record.week_yyyymmdd
  , status := record.status, notes := record.notes
  , created_at := some now, updated_at := some now }

/-- Accumulator of the per-record loop over `recordsToSync` in
`syncToRailway`. -/
structure PushState where
  remote : List RailwayRec
  locals : List LocalRec
  log : List LogEntry
  created : Nat
  updated : Nat
  errors : List Nat
  nextRemoteId : Nat
deriving DecidableEq, Repr

/-- The `local_to_railway` sync-log entry a push iteration writes. -/
def pushEntry (action : String) (st : LogStatus) (lid rid : Option Nat) :
    LogEntry :=
  { sync_type := "local_to_railway", action := action, status := st
  , local_record_id := lid, railway_record_id := rid }

/-- One iteration of the push loop: a failing record is logged `failed` and
added to the error list without aborting the loop; a record that already
has a `railway_id` is PUT to the peer; a record without one is POSTed,
the peer-assigned id is stored back into the local record, and each
outcome is logged. The loop never touches `last_synced`. -/
def pushOne (failIds : List Nat) (now : Nat) (s : PushState)
    (record : LocalRec) : PushState :=
  if record.id ∈ failIds then
    { s with
        errors := s.errors ++ [record.id],
        log := s.log ++
          [pushEntry (if record.railway_id.isSome then "update" else "insert")
            LogStatus.failed (some record.id) record.railway_id] }
  else
    match record.railway_id with
    | some rid =>
        { s with
            remote := s.remote.map
              (fun rr => if rr.id = rid then applyData record rr else rr),
            updated := s.updated + 1,
            log := s.log ++
              [pushEntry "update" LogStatus.success (some record.id) (some rid)] }
    | none =>
        let railwayId := s.nextRemoteId
        { s with
            remote := s.remote ++ [newRemote railwayId record now],
            locals := s.locals.map (fun l =>
              if l.id = record.id then { l with railway_id := some railwayId } else l),
            created := s.created + 1,
            nextRemoteId := s.nextRemoteId + 1,
            log := s.log ++
              [pushEntry "insert" LogStatus.success (some record.id)
                (some railwayId)] }

/-- The value `syncToRailway` returns to its caller:
`{ created, updated, errors, total }`. -/
structure PushResult where
  created : Nat
  updated : Nat
  errors : List Nat
  total : Nat
deriving DecidableEq, Repr

/-- The initial loop state of `syncToRailway` (the push-authoritative pass
of `services/syncService.js`): the current stores and log, zero counters. -/
def pushInit (w : SyncWorld) : PushState :=
  { remote := w.remoteRecs, locals := w.localRecs, log := w.syncLog
  , created := 0, updated := 0, errors := [], nextRemoteId := w.nextRemoteId }

/-- `syncToRailway` of `services/syncService.js`: select the unsynced local
records, push each one independently, accumulating per-record failures
without aborting the batch; returns the resulting state together with
the created/updated/errors/total summary. -/
def syncToRailwayRun (w : SyncWorld) : SyncWorld × PushResult :=
  let recordsToSync := getUnsynced w.localRecs
  let s := recordsToSync.foldl (pushOne w.failIds w.now) (pushInit w)
  ({ w with
      remoteRecs := s.remote
      localRecs := s.locals
      syncLog := s.log
      nextRemoteId := s.nextRemoteId
      events := w.events ++ [SyncEvent.push] },
   { created := s.created, updated := s.updated, errors := s.errors
   , total := recordsToSync.length })

/-- The state transformation of the push pass. -/
def syncToRailway (w : SyncWorld) : SyncWorld :=
  (syncToRailwayRun w).1

/-- `performBidirectionalSync` of `services/syncService.js`: the code runs
`syncFromRailway` first ("get latest updates") and `syncToRailway`
second ("push local changes"). -/
def performBidirectionalSync (w : SyncWorld) : SyncWorld :=
  syncToRailway (syncFromRailway w)

/-- `performRealtimeBidirectionalSync` of `services/syncService.js`: step 1
pushes local changes to Railway, step 2 pulls the latest data back. -/
def performRealtimeBidirectionalSync (w : SyncWorld) : SyncWorld :=
  syncFromRailway (syncToRailway w)

/-- A local record carrying an unsynced local change, not yet known to the
peer (no `railway_id`). -/
def recX : LocalRec :=
  { id := 7, animator := "A", project_type := "long-form"
  , episode_title := "Ep1", scene := "SC_02", shot := "SH_05"
  , week_yyyymmdd := "20250106", status := "submitted"
  , notes := "local change", railway_id := none
  , created_at := 100, updated_at := 100, last_synced := none }

/-- A peer record unknown locally. -/
def remR : RailwayRec :=
  { id := 41, animator := "B", project_type := "long-form"
  , episode_title := "Ep1", scene := "SC_09", shot := "SH_01"
  , week_yyyymmdd := "20250106", status := "approved", notes := ""
  , created_at := some 90, updated_at := some 90 }

/-- A state with one unsynced local change and one concurrent remote record. -/
def w1 : SyncWorld :=
  { localRecs := [recX], remoteRecs := [remR], syncLog := [], events := []
  , failIds := [], durationOk := true, freshBase := 1000, now := 200
  , nextRemoteId := 42 }

/-- Claim C1 counterexample: `performBidirectionalSync` runs its two legs in
the order pull, push — not push, pull as claimed — and on a state with a
local unsynced change the pull therefore clobbers the change before the
push can send it: after the pass the change is on neither side. (The
realtime variant on the same state keeps the change on both sides.) -/
theorem c1_pull_precedes_push_in_bidirectional :
    (performBidirectionalSync w1).events ≠ [SyncEvent.push, SyncEvent.pull] ∧
    (performBidirectionalSync w1).events = [SyncEvent.pull, SyncEvent.push] ∧
    w1.localRecs.any (fun r => decide (r.notes = "local change")) = true ∧
    (performBidirectionalSync w1).localRecs.all
      (fun r => decide (r.notes ≠ "local change")) = true ∧
    (performBidirectionalSync w1).remoteRecs.all
      (fun r => decide (r.notes ≠ "local change")) = true ∧
    (performRealtimeBidirectionalSync w1).localRecs.any
      (fun r => decide (r.notes = "local change")) = true ∧
    (performRealtimeBidirectionalSync w1).remoteRecs.any
      (fun r => decide (r.notes = "local change")) = true := by decide

/-- Claim C1 (amended): only the real-time bidirectional pass
(`performRealtimeBidirectionalSync`, the one run after local mutations)
executes push then pull, in that order; the plain
`performBidirectionalSync` executes pull then push, so a local unsynced
change made before that pass is clobbered by the pull before it can be
pushed. -/
theorem c1_realtime_pushes_then_pulls (w : SyncWorld) :
    (performRealtimeBidirectionalSync w).events
        = w.events ++ [SyncEvent.push, SyncEvent.pull] ∧
    (performBidirectionalSync w).events
        = w.events ++ [SyncEvent.pull, SyncEvent.push] := by
  constructor
  · simp [performRealtimeBidirectionalSync, syncFromRailway, syncToRailway,
      syncToRailwayRun]
  · simp [performBidirectionalSync, syncFromRailway, syncToRailway,
      syncToRailwayRun]

/-- Scenario-A local record (the record present before the empty pull). -/
def recA : LocalRec :=
  { id := 1, animator := "A", project_type := "long-form"
  , episode_title := "Ep1", scene := "SC_01", shot := "SH_01"
  , week_yyyymmdd := "20250106", status := "submitted", notes := ""
  , railway_id := some 11, created_at := 50, updated_at := 60
  , last_synced := some 55 }

/-- Scenario A: the peer's pull-authoritative export returns an empty list. -/
def w2 : SyncWorld :=
  { localRecs := [recA], remoteRecs := [], syncLog := [], events := []
  , failIds := [], durationOk := true, freshBase := 500, now := 100
  , nextRemoteId := 12 }

/-- Claim C2: at the Scenario-A input (peer snapshot empty, one local
record), the pull-authoritative pass is accepted and wipes the local
store — but the sync log it writes consists of the ordinary
duration-analysis `completed` entry and the ordinary `success` pass
entry; no entry of any elevated severity exists (the log vocabulary has
no severity beyond `success`/`failed`, and nothing distinguishes this
pass from a non-empty one). -/
theorem c2_empty_pull_wipes_without_elevated_log :
    (syncFromRailway w2).localRecs = [] ∧
    (syncFromRailway w2).syncLog =
      [{ sync_type := "duration_analysis", action := "duration_check"
       , status := LogStatus.completed, local_record_id := none
       , railway_record_id := none },
       { sync_type := "railway_to_local_full", action := "full_sync"
       , status := LogStatus.success, local_record_id := none
       , railway_record_id := none }] ∧
    (syncFromRailway w2).syncLog.all
      (fun e => decide (e.status ≠ LogStatus.failed)) = true := by decide

/-- A local record with peer id `rid` and an unsynced edit (status
`approved`, never marked synced). -/
def mkL (i rid : Nat) : LocalRec :=
  { id := i, animator := "A", project_type := "long-form"
  , episode_title := "Ep1", scene := "SC_01", shot := "SH_01"
  , week_yyyymmdd := "20250106", status := "approved", notes := ""
  , railway_id := some rid, created_at := 10, updated_at := 20
  , last_synced := none }

/-- The peer's current row `rid`, still carrying the old status. -/
def mkR (rid : Nat) : RailwayRec :=
  { id := rid, animator := "A", project_type := "long-form"
  , episode_title := "Ep1", scene := "SC_01", shot := "SH_01"
  , week_yyyymmdd := "20250106", status := "submitted", notes := ""
  , created_at := some 5, updated_at := some 5 }

/-- A push batch of three unsynced records in which exactly the second one
fails. -/
def w6 : SyncWorld :=
  { localRecs := [mkL 1 21, mkL 2 22, mkL 3 23]
  , remoteRecs := [mkR 21, mkR 22, mkR 23], syncLog := [], events := []
  , failIds := [2], durationOk := true, freshBase := 900, now := 300
  , nextRemoteId := 24 }

/-- Claim C6 counterexample: in the batch of three where record 2 fails, the
other two are indeed pushed (the peer rows 21 and 23 carry the new
status) and the log holds exactly one failure entry, for record 2 — but
no record is "marked synced": after the pass all three records are still
in the unsynced set, because `syncToRailway` never updates
`last_synced`. -/
theorem c6_pushed_records_not_marked_synced :
    ((syncToRailway w6).syncLog.filter
        (fun e => decide (e.status = LogStatus.failed))).map
      (fun e => e.local_record_id) = [some 2] ∧
    (syncToRailway w6).remoteRecs.map (fun r => (r.id, r.status))
      = [(21, "approved"), (22, "submitted"), (23, "approved")] ∧
    (getUnsynced w6.localRecs).map (fun r => r.id) = [1, 2, 3] ∧
    (getUnsynced (syncToRailway w6).localRecs).map (fun r => r.id)
      = [1, 2, 3] := by decide

/-- Helper: status and subject of the single log entry one push iteration
appends. -/
lemma pushOne_log_project (failIds : List Nat) (now : Nat) (s : PushState)
    (r : LocalRec) :
    (pushOne failIds now s r).log.map (fun e => (e.status, e.local_record_id))
      = s.log.map (fun e => (e.status, e.local_record_id)) ++
        [((if r.id ∈ failIds then LogStatus.failed else LogStatus.success),
          some r.id)] := by
  by_cases hf : r.id ∈ failIds
  · simp [pushOne, hf, pushEntry]
  · cases hr : r.railway_id <;> simp [pushOne, hf, hr, pushEntry]

/-- Helper: the whole push loop appends one log entry per record, failed
exactly for the failing ids, in batch order. -/
lemma pushLoop_log_project (failIds : List Nat) (now : Nat)
    (rs : List LocalRec) (init : PushState) :
    ((rs.foldl (pushOne failIds now) init).log).map
        (fun e => (e.status, e.local_record_id))
      = init.log.map (fun e => (e.status, e.local_record_id)) ++
        rs.map (fun r =>
          ((if r.id ∈ failIds then LogStatus.failed else LogStatus.success),
           some r.id)) := by
  induction rs generalizing init with
  | nil => simp
  | cons r t ih =>
    rw [List.foldl_cons, ih, pushOne_log_project]
    simp

/-- Helper: the non-failing records are exactly the pushes counted as
created or updated. -/
lemma pushLoop_counters (failIds : List Nat) (now : Nat)
    (rs : List LocalRec) (init : PushState) :
    (rs.foldl (pushOne failIds now) init).created +
      (rs.foldl (pushOne failIds now) init).updated
      = init.created + init.updated +
        (rs.filter (fun r => decide (r.id ∉ failIds))).length := by
  induction rs generalizing init with
  | nil => simp
  | cons r t ih =>
    rw [List.foldl_cons, ih]
    by_cases hf : r.id ∈ failIds
    · simp [pushOne, hf]
    · cases hr : r.railway_id <;> simp [pushOne, hf, hr] <;> omega

/-- Helper: the error list accumulates exactly the failing ids, in order. -/
lemma pushLoop_errors (failIds : List Nat) (now : Nat)
    (rs : List LocalRec) (init : PushState) :
    (rs.foldl (pushOne failIds now) init).errors
      = init.errors ++
        (rs.filter (fun r => decide (r.id ∈ failIds))).map (fun r => r.id) := by
  induction rs generalizing init with
  | nil => simp
  | cons r t ih =>
    rw [List.foldl_cons, ih]
    by_cases hf : r.id ∈ failIds
    · simp [pushOne, hf]
    · cases hr : r.railway_id <;> simp [pushOne, hf, hr]

/-- Helper: storing a peer id into a local record does not change whether it
needs syncing (`needsSync` reads only `last_synced` and `updated_at`). -/
lemma needsSync_set_railway_id (l : LocalRec) (v : Option Nat) :
    needsSync { l with railway_id := v } = needsSync l := rfl

/-- Helper: one push iteration leaves the number of unsynced local records
unchanged — it never touches `last_synced`. -/
lemma pushOne_unsynced_length (failIds : List Nat) (now : Nat) (s : PushState)
    (r : LocalRec) :
    (getUnsynced (pushOne failIds now s r).locals).length
      = (getUnsynced s.locals).length := by
  by_cases hf : r.id ∈ failIds
  · simp [pushOne, hf]
  · cases hr : r.railway_id
    · simp only [pushOne, hf, if_false, hr]
      unfold getUnsynced
      rw [List.filter_map]
      rw [List.length_map]
      congr 1
      apply List.filter_congr
      intro l _
      simp only [Function.comp_apply]
      by_cases hl : l.id = r.id
      · simp only [if_pos hl]
        rfl
      · simp only [if_neg hl]
    · simp [pushOne, hf, hr]

/-- Helper: the push loop leaves the number of unsynced local records
unchanged. -/
lemma pushLoop_unsynced_length (failIds : List Nat) (now : Nat)
    (rs : List LocalRec) (init : PushState) :
    (getUnsynced ((rs.foldl (pushOne failIds now) init).locals)).length
      = (getUnsynced init.locals).length := by
  induction rs generalizing init with
  | nil => rfl
  | cons r t ih =>
    rw [List.foldl_cons, ih, pushOne_unsynced_length]

/-- Helper: selecting the failed entries commutes with projecting entries to
their (status, subject) pair. -/
lemma filter_failed_project (l : List LogEntry) :
    ((l.filter (fun e => decide (e.status = LogStatus.failed))).map
        (fun e => e.local_record_id))
      = (((l.map (fun e => (e.status, e.local_record_id))).filter
          (fun p => decide (p.1 = LogStatus.failed))).map (fun p => p.2)) := by
  induction l with
  | nil => rfl
  | cons e t ih =>
    by_cases h : e.status = LogStatus.failed <;>
      simp [List.filter_cons, h, ih]

/-- Helper: among the per-record (status, subject) pairs of a batch, the
failed ones are exactly the failing records. -/
lemma pairs_failed (failIds : List Nat) (rs : List LocalRec) :
    (((rs.map (fun r =>
        ((if r.id ∈ failIds then LogStatus.failed else LogStatus.success),
         some r.id))).filter
        (fun p => decide (p.1 = LogStatus.failed))).map (fun p => p.2))
      = (rs.filter (fun r => decide (r.id ∈ failIds))).map
          (fun r => some r.id) := by
  induction rs with
  | nil => rfl
  | cons r t ih =>
    by_cases h : r.id ∈ failIds <;>
      simp [List.filter_cons, h, ih]

/-- Helper: a list splits by a predicate into matching and non-matching
parts. -/
lemma length_filter_split {α : Type} (p : α → Bool) (l : List α) :
    (l.filter p).length + (l.filter (fun a => !(p a))).length = l.length := by
  induction l with
  | nil => rfl
  | cons a t ih =>
    by_cases h : p a = true
    · simp [List.filter_cons, h]
      omega
    · simp [List.filter_cons, h]
      omega

/-- Claim C6 (amended): in a push batch of N unsynced records in which
exactly one record k fails, the batch is not aborted — one log entry is
written per record, the single failed entry names k, the per-record error
list is exactly [k], and all N−1 other records are pushed to the peer
(counted created or updated) — but no record is "marked synced": the pass
never updates `last_synced`, so the unsynced set keeps its full size
afterwards. -/
theorem c6_push_partial_failure_isolation (w : SyncWorld) (k : Nat)
    (hone : ((getUnsynced w.localRecs).filter
        (fun r => decide (r.id ∈ w.failIds))).map (fun r => r.id) = [k]) :
    ((((syncToRailway w).syncLog.drop w.syncLog.length).filter
        (fun e => decide (e.status = LogStatus.failed))).map
      (fun e => e.local_record_id)) = [some k] ∧
    ((syncToRailway w).syncLog.drop w.syncLog.length).length
      = (getUnsynced w.localRecs).length ∧
    (syncToRailwayRun w).2.created + (syncToRailwayRun w).2.updated
      = (getUnsynced w.localRecs).length - 1 ∧
    (syncToRailwayRun w).2.errors = [k] ∧
    (getUnsynced (syncToRailway w).localRecs).length
      = (getUnsynced w.localRecs).length := by
  have hlog : (syncToRailway w).syncLog
      = ((getUnsynced w.localRecs).foldl (pushOne w.failIds w.now)
          (pushInit w)).log := rfl
  have hlocals : (syncToRailway w).localRecs
      = ((getUnsynced w.localRecs).foldl (pushOne w.failIds w.now)
          (pushInit w)).locals := rfl
  have hcreated : (syncToRailwayRun w).2.created
      = ((getUnsynced w.localRecs).foldl (pushOne w.failIds w.now)
          (pushInit w)).created := rfl
  have hupdated : (syncToRailwayRun w).2.updated
      = ((getUnsynced w.localRecs).foldl (pushOne w.failIds w.now)
          (pushInit w)).updated := rfl
  have herr : (syncToRailwayRun w).2.errors
      = ((getUnsynced w.localRecs).foldl (pushOne w.failIds w.now)
          (pushInit w)).errors := rfl
  have hproj := pushLoop_log_project w.failIds w.now
    (getUnsynced w.localRecs) (pushInit w)
  have hinitlog : (pushInit w).log = w.syncLog := rfl
  rw [hinitlog] at hproj
  -- one failure in the batch means the failing sublist has length one
  have hfail_len : ((getUnsynced w.localRecs).filter
      (fun r => decide (r.id ∈ w.failIds))).length = 1 := by
    have := congrArg List.length hone
    simpa using this
  -- total length of the log appended by the pass
  have hlen : ((getUnsynced w.localRecs).foldl (pushOne w.failIds w.now)
      (pushInit w)).log.length
      = w.syncLog.length + (getUnsynced w.localRecs).length := by
    have := congrArg List.length hproj
    simpa using this
  -- the appended log projects to the per-record pairs
  have happend : (((getUnsynced w.localRecs).foldl (pushOne w.failIds w.now)
        (pushInit w)).log.drop w.syncLog.length).map
          (fun e => (e.status, e.local_record_id))
      = (getUnsynced w.localRecs).map (fun r =>
          ((if r.id ∈ w.failIds then LogStatus.failed else LogStatus.success),
           some r.id)) := by
    rw [List.map_drop, hproj]
    rw [show w.syncLog.length
        = (w.syncLog.map (fun e => (e.status, e.local_record_id))).length from
      (List.length_map _ _).symm]
    exact List.drop_left _ _
  refine ⟨?_, ?_, ?_, ?_, ?_⟩
  · rw [hlog, filter_failed_project, happend, pairs_failed]
    rw [show ((getUnsynced w.localRecs).filter
          (fun r => decide (r.id ∈ w.failIds))).map (fun r => some r.id)
        = (((getUnsynced w.localRecs).filter
            (fun r => decide (r.id ∈ w.failIds))).map
          (fun r => r.id)).map some from (List.map_map _ _ _).symm]
    rw [hone]
    rfl
  · rw [hlog, List.length_drop, hlen]
    omega
  · rw [hcreated, hupdated, pushLoop_counters]
    have hsplit := length_filter_split
      (fun r => decide (r.id ∈ w.failIds)) (getUnsynced w.localRecs)
    have hnot : ((getUnsynced w.localRecs).filter
          (fun r => decide (r.id ∉ w.failIds)))
        = ((getUnsynced w.localRecs).filter
          (fun r => !(decide (r.id ∈ w.failIds)))) := by
      apply List.filter_congr
      intro r _
      exact decide_not
    rw [hnot]
    simp only [pushInit]
    omega
  · rw [herr, pushLoop_errors]
    have hinit : (pushInit w).errors = [] := rfl
    rw [hinit, hone]
    rfl
  · rw [hlocals, pushLoop_unsynced_length]
    rfl

/-- Witness for `c6_push_partial_failure_isolation` on the concrete
three-record batch `w6` where exactly record 2 fails. -/
theorem c6_push_partial_failure_isolation_witness :
    ((getUnsynced w6.localRecs).filter
        (fun r => decide (r.id ∈ w6.failIds))).map (fun r => r.id) = [2] ∧
    (((((syncToRailway w6).syncLog.drop w6.syncLog.length).filter
        (fun e => decide (e.status = LogStatus.failed))).map
      (fun e => e.local_record_id)) = [some 2] ∧
    ((syncToRailway w6).syncLog.drop w6.syncLog.length).length
      = (getUnsynced w6.localRecs).length ∧
    (syncToRailwayRun w6).2.created + (syncToRailwayRun w6).2.updated
      = (getUnsynced w6.localRecs).length - 1 ∧
    (syncToRailwayRun w6).2.errors = [2] ∧
    (getUnsynced (syncToRailway w6).localRecs).length
      = (getUnsynced w6.localRecs).length) :=
  ⟨by decide, c6_push_partial_failure_isolation w6 2 (by decide)⟩

/-- Helper: the conversion yields one local record per snapshot record. -/
lemma convertAllAux_length (L : List LocalRec) (now : Nat) :
    ∀ (f : Nat) (rs : List RailwayRec),
      (convertAllAux L now f rs).length = rs.length
  | _, [] => rfl
  | f, r :: t => by
      show (convertAllAux L now (f + 1) t).length + 1 = t.length + 1
      rw [convertAllAux_length L now (f + 1) t]

/-- Helper: a converted record remembers its peer id. -/
lemma convertRecord_railway_id (L : List LocalRec) (f now : Nat)
    (r : RailwayRec) : (convertRecord L f now r).railway_id = some r.id := rfl

/-- Helper: with a positive fresh draw, a converted record's surrogate id is
positive (the JavaScript `|| fresh` fallback fires exactly on the falsy
id 0). -/
lemma convertRecord_id_pos (L : List LocalRec) (f now : Nat) (r : RailwayRec)
    (hf : 0 < f) : 0 < (convertRecord L f now r).id := by
  show 0 < (match L.find? (fun l => decide (l.railway_id = some r.id)) with
            | some l => if l.id = 0 then f else l.id
            | none => f)
  cases h : L.find? (fun l => decide (l.railway_id = some r.id)) with
  | none => exact hf
  | some l =>
    show 0 < if l.id = 0 then f else l.id
    by_cases hl : l.id = 0
    · rw [if_pos hl]; exact hf
    · rw [if_neg hl]; omega

/-- Helper: in a converted snapshot with pairwise distinct peer ids, the
first local record carrying the k-th peer id is exactly the k-th
converted record. -/
lemma convertAllAux_find (L : List LocalRec) (now : Nat) :
    ∀ (rs : List RailwayRec) (f k : Nat) (hk : k < rs.length),
      (rs.map RailwayRec.id).Nodup →
      (convertAllAux L now f rs).find?
          (fun l => decide (l.railway_id = some (rs.get ⟨k, hk⟩).id))
        = some (convertRecord L (f + k) now (rs.get ⟨k, hk⟩))
  | [], _, k, hk, _ => absurd hk (by simp)
  | r :: t, f, 0, hk, hnd => by
      show (convertRecord L f now r :: convertAllAux L now (f + 1) t).find?
          (fun l => decide (l.railway_id = some r.id))
        = some (convertRecord L (f + 0) now r)
      rw [List.find?_cons_of_pos]
      · rw [Nat.add_zero]
      · simp [convertRecord_railway_id]
  | r :: t, f, k + 1, hk, hnd => by
      have hk' : k < t.length := by simpa using hk
      have hnd' : (t.map RailwayRec.id).Nodup := by
        rw [List.map_cons, List.nodup_cons] at hnd
        exact hnd.2
      have hrne : r.id ∉ t.map RailwayRec.id := by
        rw [List.map_cons, List.nodup_cons] at hnd
        exact hnd.1
      have hne : (t.get ⟨k, hk'⟩).id ≠ r.id := by
        intro h
        exact hrne
          (h ▸ List.mem_map.mpr ⟨t.get ⟨k, hk'⟩, List.get_mem t k hk', rfl⟩)
      show (convertRecord L f now r :: convertAllAux L now (f + 1) t).find?
          (fun l => decide (l.railway_id = some (t.get ⟨k, hk'⟩).id))
        = some (convertRecord L (f + (k + 1)) now (t.get ⟨k, hk'⟩))
      rw [List.find?_cons_of_neg]
      · rw [convertAllAux_find L now t (f + 1) k hk' hnd']
        rw [show f + 1 + k = f + (k + 1) from by omega]
      · simp [convertRecord_railway_id]
        intro h
        exact hne h.symm

/-- Helper: a converted record is its own field expansion. -/
lemma convertRecord_eta (L : List LocalRec) (f now : Nat) (r : RailwayRec) :
    convertRecord L f now r =
      { id := (convertRecord L f now r).id, animator := r.animator
      , project_type := r.project_type, episode_title := r.episode_title
      , scene := r.scene, shot := r.shot, week_yyyymmdd := r.week_yyyymmdd
      , status := r.status, notes := r.notes, railway_id := some r.id
      , created_at := r.created_at.getD now, updated_at := r.updated_at.getD now
      , last_synced := none } := rfl

/-- Helper: re-converting a snapshot record against a store in which its
prior image is the first match reproduces that image exactly, whatever
fresh id or clock the second conversion uses — provided the image's id is
nonzero (never falsy) and the record carries its own timestamps. -/
lemma convert_stable_elem (L1 L : List LocalRec) (now now2 f0 g : Nat)
    (r : RailwayRec)
    (hfind : L1.find? (fun l => decide (l.railway_id = some r.id))
        = some (convertRecord L f0 now r))
    (hpos : 0 < (convertRecord L f0 now r).id)
    (hc : r.created_at.isSome) (hu : r.updated_at.isSome) :
    convertRecord L1 g now2 r = convertRecord L f0 now r := by
  obtain ⟨c, hcv⟩ := Option.isSome_iff_exists.mp hc
  obtain ⟨u, huv⟩ := Option.isSome_iff_exists.mp hu
  have hid : (convertRecord L1 g now2 r).id
      = (convertRecord L f0 now r).id := by
    show (match L1.find? (fun l => decide (l.railway_id = some r.id)) with
          | some l => if l.id = 0 then g else l.id
          | none => g) = (convertRecord L f0 now r).id
    rw [hfind]
    show (if (convertRecord L f0 now r).id = 0 then g
          else (convertRecord L f0 now r).id) = (convertRecord L f0 now r).id
    rw [if_neg (by omega)]
  rw [convertRecord_eta L1 g now2 r, convertRecord_eta L f0 now r, hid,
    hcv, huv]
  rfl

/-- Helper: the k-th converted record is the conversion of the k-th
snapshot record with the k-th fresh draw. -/
lemma convertAllAux_get (L : List LocalRec) (now : Nat) :
    ∀ (rs : List RailwayRec) (f k : Nat) (hk : k < rs.length)
      (hk2 : k < (convertAllAux L now f rs).length),
      (convertAllAux L now f rs).get ⟨k, hk2⟩
        = convertRecord L (f + k) now (rs.get ⟨k, hk⟩)
  | [], _, k, hk, _ => absurd hk (by simp)
  | r :: t, f, 0, hk, hk2 => by
      show convertRecord L f now r = convertRecord L (f + 0) now r
      rw [Nat.add_zero]
  | r :: t, f, k + 1, hk, hk2 => by
      have hk' : k < t.length := by simpa using hk
      have hk2' : k < (convertAllAux L now (f + 1) t).length := by
        rw [convertAllAux_length]
        exact hk'
      show (convertAllAux L now (f + 1) t).get ⟨k, hk2'⟩
          = convertRecord L (f + (k + 1)) now (t.get ⟨k, hk'⟩)
      rw [convertAllAux_get L now t (f + 1) k hk' hk2']
      rw [show f + 1 + k = f + (k + 1) from by omega]

/-- Helper: converting the same snapshot a second time, against the local
store produced by the first conversion, reproduces that store exactly. -/
lemma convertAllAux_stable (L : List LocalRec) (now now2 f f2 : Nat)
    (rs : List RailwayRec) (hnd : (rs.map RailwayRec.id).Nodup)
    (hts : ∀ r ∈ rs, r.created_at.isSome ∧ r.updated_at.isSome)
    (hf : 0 < f) :
    convertAllAux (convertAllAux L now f rs) now2 f2 rs
      = convertAllAux L now f rs := by
  apply List.ext_get
  · rw [convertAllAux_length, convertAllAux_length]
  · intro k h1 h2
    have hk : k < rs.length := by
      rw [convertAllAux_length] at h1
      exact h1
    rw [convertAllAux_get (convertAllAux L now f rs) now2 rs f2 k hk h1]
    rw [convertAllAux_get L now rs f k hk h2]
    exact convert_stable_elem (convertAllAux L now f rs) L now now2 (f + k)
      (f2 + k) (rs.get ⟨k, hk⟩)
      (convertAllAux_find L now rs f k hk hnd)
      (convertRecord_id_pos L (f + k) now (rs.get ⟨k, hk⟩) (by omega))
      (hts (rs.get ⟨k, hk⟩) (List.get_mem rs k hk)).1
      (hts (rs.get ⟨k, hk⟩) (List.get_mem rs k hk)).2

/-- Claim C9: applying the same pull-authoritative `full_replace` snapshot
twice in succession leaves the local store exactly as one application
does — counts do not drift (both applications leave exactly one record
per snapshot record, so the second creates no duplicate ids) — provided
the snapshot's peer ids are pairwise distinct (they are a SERIAL primary
key), its records carry their timestamps, and fresh surrogate ids are
never the falsy 0. -/
theorem c9_full_replace_idempotent (w : SyncWorld)
    (hnd : (w.remoteRecs.map RailwayRec.id).Nodup)
    (hts : ∀ r ∈ w.remoteRecs, r.created_at.isSome ∧ r.updated_at.isSome)
    (hf : 0 < w.freshBase) :
    (syncFromRailway (syncFromRailway w)).localRecs
        = (syncFromRailway w).localRecs ∧
    (syncFromRailway w).localRecs.length = w.remoteRecs.length := by
  have h1 : (syncFromRailway w).localRecs
      = convertAllAux w.localRecs w.now w.freshBase w.remoteRecs := rfl
  have h2 : (syncFromRailway (syncFromRailway w)).localRecs
      = convertAllAux (convertAllAux w.localRecs w.now w.freshBase w.remoteRecs)
          (w.now + 1) (w.freshBase + w.remoteRecs.length + 1) w.remoteRecs := rfl
  rw [h1, h2]
  exact ⟨convertAllAux_stable w.localRecs w.now (w.now + 1) w.freshBase
      (w.freshBase + w.remoteRecs.length + 1) w.remoteRecs hnd hts hf,
    convertAllAux_length w.localRecs w.now w.freshBase w.remoteRecs⟩

/-- Witness for `c9_full_replace_idempotent` at the concrete state `w6`
(three-record snapshot with distinct peer ids and full timestamps). -/
theorem c9_full_replace_idempotent_witness :
    ((w6.remoteRecs.map RailwayRec.id).Nodup ∧
     (∀ r ∈ w6.remoteRecs, r.created_at.isSome ∧ r.updated_at.isSome) ∧
     0 < w6.freshBase) ∧
    ((syncFromRailway (syncFromRailway w6)).localRecs
        = (syncFromRailway w6).localRecs ∧
     (syncFromRailway w6).localRecs.length = w6.remoteRecs.length) :=
  ⟨⟨by decide, by decide, by decide⟩,
   c9_full_replace_idempotent w6 (by decide) (by decide) (by decide)⟩

/-- Events of the sync orchestrator: a `setInterval` tick of `startAutoSync`,
an explicit real-time trigger, the elapse of a waiting trigger's bounded
wait, the completion of a flag-guarded pass (its `finally` clause), and —
entry points the flag does not cover — the start and completion of an
unguarded pass: `performInitialSync` (which calls `syncToRailway` without
checking or setting `isSyncing`) and the route handlers of
`server/routes/api.js` that call `syncToRailway`/`syncFromRailway`
directly (the create/update/delete productions handlers, the manual
railway-database sync and the to-railway sync). -/
inductive OrchEv
  | timer
  | explicitCall
  | waitElapsed
  | finish
  | unguardedCall
  | unguardedFinish
deriving DecidableEq, Repr

/-- Orchestrator state: the `isSyncing` flag of the sync service singleton,
plus observation counters — `guardedRunning` counts the passes currently
executing that hold the flag, `unguardedRunning` the passes started by
the entry points that never touch the flag, `waiting` the explicit
triggers inside their bounded wait, `droppedTimer` the skipped timer
ticks, `busyFailed` the explicit triggers that failed with the busy
error and `completed` the finished passes. -/
structure Orch where
  isSyncing : Bool
  guardedRunning : Nat
  unguardedRunning : Nat
  waiting : Nat
  droppedTimer : Nat
  busyFailed : Nat
  completed : Nat
deriving DecidableEq, Repr

/-- The total number of reconciliation passes currently executing. -/
def Orch.totalRunning (s : Orch) : Nat :=
  s.guardedRunning + s.unguardedRunning

/-- The orchestrator before any trigger fires. -/
def initOrch : Orch :=
  { isSyncing := false, guardedRunning := 0, unguardedRunning := 0
  , waiting := 0, droppedTimer := 0, busyFailed := 0, completed := 0 }

/-- The bounded wait of an explicit trigger before it fails busy:
`setTimeout(resolve, 1000)` in `performRealtimeBidirectionalSync`. -/
def explicitWaitMs : Nat := 1000

/-- The orchestrator's transitions, one per code path. Checking `isSyncing`
and setting it happen with no `await` in between, so on the cooperative
event loop each guarded check-and-set is a single atomic step:
a timer tick with the flag set logs and skips (nothing is queued);
a timer tick with the flag clear starts a guarded pass; an explicit
trigger with the flag set enters its bounded wait; one with the flag
clear starts immediately; a waiting trigger whose bound elapses with the
flag still set throws the busy error; one that re-checks with the flag
clear starts; a finishing guarded pass clears the flag in its `finally`
clause. The last two transitions are the entry points the flag does not
cover: `performInitialSync` (part_003, startup) and the direct
`syncToRailway`/`syncFromRailway` calls in the `server/routes/api.js`
handlers run a pass with no check or set of `isSyncing` at all, in any
state, and their completion leaves the flag alone likewise. -/
inductive OStep : Orch → OrchEv → Orch → Prop
  | timerSkip (s : Orch) (h : s.isSyncing = true) :
      OStep s OrchEv.timer { s with droppedTimer := s.droppedTimer + 1 }
  | timerStart (s : Orch) (h : s.isSyncing = false) :
      OStep s OrchEv.timer
        { s with isSyncing := true, guardedRunning := s.guardedRunning + 1 }
  | explicitWait (s : Orch) (h : s.isSyncing = true) :
      OStep s OrchEv.explicitCall { s with waiting := s.waiting + 1 }
  | explicitStart (s : Orch) (h : s.isSyncing = false) :
      OStep s OrchEv.explicitCall
        { s with isSyncing := true, guardedRunning := s.guardedRunning + 1 }
  | waitBusy (s : Orch) (h : s.isSyncing = true) (hw : 0 < s.waiting) :
      OStep s OrchEv.waitElapsed
        { s with waiting := s.waiting - 1, busyFailed := s.busyFailed + 1 }
  | waitStart (s : Orch) (h : s.isSyncing = false) (hw : 0 < s.waiting) :
      OStep s OrchEv.waitElapsed
        { s with
            waiting := s.waiting - 1, isSyncing := true,
            guardedRunning := s.guardedRunning + 1 }
  | passEnd (s : Orch) (h : s.isSyncing = true) :
      OStep s OrchEv.finish
        { s with
            isSyncing := false, guardedRunning := s.guardedRunning - 1,
            completed := s.completed + 1 }
  | unguardedStart (s : Orch) :
      OStep s OrchEv.unguardedCall
        { s with unguardedRunning := s.unguardedRunning + 1 }
  | unguardedEnd (s : Orch) (h : 0 < s.unguardedRunning) :
      OStep s OrchEv.unguardedFinish
        { s with
            unguardedRunning := s.unguardedRunning - 1,
            completed := s.completed + 1 }

/-- The states the orchestrator can reach from startup. -/
inductive OReach : Orch → Prop
  | init : OReach initOrch
  | step {s t : Orch} {e : OrchEv} : OReach s → OStep s e t → OReach t

/-- The coupling invariant: the `isSyncing` flag counts exactly the passes
that hold it. The unguarded entry points are invisible to the flag. -/
def OrchInv (s : Orch) : Prop :=
  s.guardedRunning = (if s.isSyncing = true then 1 else 0)

/-- Helper: every transition preserves the coupling invariant. -/
lemma orchInv_step {s t : Orch} {e : OrchEv} (hs : OrchInv s)
    (hstep : OStep s e t) : OrchInv t := by
  unfold OrchInv at hs ⊢
  cases hstep with
  | timerSkip h => simpa using hs
  | timerStart h => simp [h] at hs ⊢; omega
  | explicitWait h => simpa using hs
  | explicitStart h => simp [h] at hs ⊢; omega
  | waitBusy h hw => simpa using hs
  | waitStart h hw => simp [h] at hs ⊢; omega
  | passEnd h => simp [h] at hs ⊢; omega
  | unguardedStart => simpa using hs
  | unguardedEnd h => simpa using hs

/-- Helper: the coupling invariant holds in every reachable state. -/
lemma orchInv_reach {s : Orch} (h : OReach s) : OrchInv s := by
  induction h with
  | init => rfl
  | step hr hstep ih => exact orchInv_step ih hstep

/-- The state reached from startup by `performInitialSync` starting its
unguarded pass and the first timer tick then starting a guarded pass on
top of it: two passes running in parallel. -/
def sPar : Orch :=
  { isSyncing := true, guardedRunning := 1, unguardedRunning := 1
  , waiting := 0, droppedTimer := 0, busyFailed := 0, completed := 0 }

/-- Claim C7 counterexample: the state `sPar` with two reconciliation
passes running in parallel is reachable — `performInitialSync` (or any
of the direct route-handler sync calls) starts a pass without touching
`isSyncing`, so while it runs the flag is still clear and a pass is
running, and the next timer tick is not skipped but starts a second,
parallel pass. -/
theorem c7_parallel_passes_reachable :
    OReach sPar ∧ sPar.totalRunning = 2 ∧
    ({ initOrch with
        unguardedRunning := initOrch.unguardedRunning + 1 } : Orch).isSyncing
      = false ∧
    ({ initOrch with
        unguardedRunning := initOrch.unguardedRunning + 1 } : Orch).totalRunning
      = 1 :=
  ⟨OReach.step (OReach.step OReach.init (OStep.unguardedStart initOrch))
      (OStep.timerStart _ rfl),
   rfl, rfl, rfl⟩

/-- Claim C7 (amended): the single-flight mechanism covers only the
`isSyncing`-guarded entry points. In every reachable state at most one
guarded pass is running; a timer tick that fires while the flag is set
can only drop (its unique transition bumps the dropped counter and
leaves the waiting set untouched — nothing is queued and nothing
starts); an explicit trigger whose bounded wait (the 1000 ms
`setTimeout`) elapses while the flag is still set can only fail with
the busy error. The unguarded entry points — `performInitialSync` and
the direct route-handler sync calls — are outside the mechanism, so a
second pass can run in parallel with an unguarded one
(`c7_parallel_passes_reachable`). -/
theorem c7_guarded_single_flight :
    (∀ s, OReach s → s.guardedRunning ≤ 1) ∧
    (∀ s t, s.isSyncing = true → OStep s OrchEv.timer t →
      t = { s with droppedTimer := s.droppedTimer + 1 }) ∧
    (∀ s t, s.isSyncing = true → OStep s OrchEv.waitElapsed t →
      t = { s with
              waiting := s.waiting - 1,
              busyFailed := s.busyFailed + 1 }) ∧
    explicitWaitMs = 1000 := by
  refine ⟨?_, ?_, ?_, rfl⟩
  · intro s hs
    have hinv := orchInv_reach hs
    unfold OrchInv at hinv
    by_cases h : s.isSyncing = true <;> simp [h] at hinv <;> omega
  · intro s t h hstep
    cases hstep with
    | timerSkip _ => rfl
    | timerStart h2 =>
        rw [h] at h2
        exact Bool.noConfusion h2
  · intro s t h hstep
    cases hstep with
    | waitBusy _ _ => rfl
    | waitStart h2 _ =>
        rw [h] at h2
        exact Bool.noConfusion h2

/-- The state with one guarded pass running and no waiters. -/
def sRun : Orch :=
  { isSyncing := true, guardedRunning := 1, unguardedRunning := 0
  , waiting := 0, droppedTimer := 0, busyFailed := 0, completed := 0 }

/-- The state with one guarded pass running and one explicit trigger
waiting. -/
def sWait : Orch :=
  { isSyncing := true, guardedRunning := 1, unguardedRunning := 0
  , waiting := 1, droppedTimer := 0, busyFailed := 0, completed := 0 }

/-- Witness for `c7_guarded_single_flight`: `sRun` is reached by one
explicit start from startup and has at most one guarded pass; the timer
tick fired in `sRun` drops; the elapsed waiter in `sWait` fails busy. -/
theorem c7_guarded_single_flight_witness :
    sRun.guardedRunning ≤ 1 ∧
    ({ sRun with droppedTimer := sRun.droppedTimer + 1 }
      = { sRun with droppedTimer := sRun.droppedTimer + 1 }) ∧
    ({ sWait with
          waiting := sWait.waiting - 1,
          busyFailed := sWait.busyFailed + 1 }
      = { sWait with
            waiting := sWait.waiting - 1,
            busyFailed := sWait.busyFailed + 1 }) :=
  ⟨c7_guarded_single_flight.1 sRun
      (OReach.step OReach.init (OStep.explicitStart initOrch rfl)),
   c7_guarded_single_flight.2.1 sRun _ rfl (OStep.timerSkip sRun rfl),
   c7_guarded_single_flight.2.2.1 sWait _ rfl
     (OStep.waitBusy sWait rfl (by decide))⟩
